import Mathlib

/-!
Verification of the klink backend (src/backend/index.js), a personal-finance
bookkeeping API: Express routes over a PostgreSQL store with two tables,
transactions and budget_categories.  The embedding below transliterates the
request handlers: JavaScript request-body values become the inductive JsVal,
the database becomes an explicit DB value threaded through each handler, the
pg error/rollback paths become explicit branches, and server time NOW() is a
parameter.  Timestamps are integers counted in seconds, so the SQL fragment
INTERVAL 1 minute is the constant 60.
-/

namespace Klink

/-- A JavaScript number as it can appear in a request body after
express.json(): NaN, positive or negative Infinity (reachable from JSON
literals such as 1e999), or a finite value.  Finite values are integers,
matching the INTEGER amount column of the schema. -/
inductive JsNum where
  | nan
  | inf (pos : Bool)
  | finite (v : Int)
deriving DecidableEq

/-- A JavaScript value of a request-body field: undef models a missing key. -/
inductive JsVal where
  | undef
  | nullv
  | bool (b : Bool)
  | num (n : JsNum)
  | str (s : String)
deriving DecidableEq

/-- JS isNaN on a number. -/
def JsNum.isNan : JsNum → Bool
  | .nan => true
  | _ => false

/-- JS truthiness of a number: NaN and 0 are falsy. -/
def JsNum.truthy : JsNum → Bool
  | .nan => false
  | .inf _ => true
  | .finite v => v != 0

/-- JS String() of a number, as the pg driver serialises numeric parameters. -/
def JsNum.toText : JsNum → String
  | .nan => "NaN"
  | .inf true => "Infinity"
  | .inf false => "-Infinity"
  | .finite v => toString v

/-- JS truthiness: undefined, null, false, 0, NaN and the empty string are
falsy, everything else is truthy. -/
def JsVal.truthy : JsVal → Bool
  | .undef => false
  | .nullv => false
  | .bool b => b
  | .num n => n.truthy
  | .str s => s != ""

/-- Text form of a body value used as a TEXT query parameter (the pg driver
serialises non-string primitives with toString; undefined and null become SQL
NULL, but every handler only sends truthy values to TEXT columns). -/
def JsVal.toText : JsVal → String
  | .undef => "undefined"
  | .nullv => "null"
  | .bool true => "true"
  | .bool false => "false"
  | .num n => n.toText
  | .str s => s

/-- Models new Date(v).getTime(), with none for an invalid date (NaN time):
a finite number is its own timestamp, NaN and Infinity give an invalid date,
null is epoch 0, booleans coerce to 0 and 1, and strings are parsed by the
ambient string-date parser sp, which abstracts the JS Date.parse algorithm. -/
def jsNewDate (sp : String → Option Int) : JsVal → Option Int
  | .undef => none
  | .nullv => some 0
  | .bool b => some (if b then 1 else 0)
  | .num (.finite v) => some v
  | .num _ => none
  | .str s => sp s

/-- Models JS parseInt(s) in base 10: skip leading whitespace, read an
optional sign and then the longest run of decimal digits; none models NaN
(no digits found). -/
def parseIntJs (s : String) : Option Int :=
  let cs := s.toList.dropWhile fun c => c = ' ' || c = '\t' || c = '\n' || c = '\r'
  let signed : Bool × List Char :=
    match cs with
    | '-' :: rest => (true, rest)
    | '+' :: rest => (false, rest)
    | other => (false, other)
  let ds := signed.2.takeWhile Char.isDigit
  if ds.isEmpty then none
  else
    let v : Nat := ds.foldl (fun a c => a * 10 + (c.toNat - '0'.toNat)) 0
    some (if signed.1 then -(v : Int) else (v : Int))

/-- Models the PostgreSQL text-to-integer input parse (int4in) applied to a
textual query parameter bound to an integer column: an optional sign followed
by at least one digit and nothing else; none models the 22P02 parse error. -/
def pgStrictInt (s : String) : Option Int :=
  let signed : Bool × List Char :=
    match s.toList with
    | '-' :: rest => (true, rest)
    | '+' :: rest => (false, rest)
    | other => (false, other)
  if signed.2.isEmpty || !signed.2.all Char.isDigit then none
  else
    let v : Nat := signed.2.foldl (fun a c => a * 10 + (c.toNat - '0'.toNat)) 0
    some (if signed.1 then -(v : Int) else (v : Int))

/-- A row of the transactions table (schema at index.js lines 51-60). -/
structure Transaction where
  id : Nat
  user_id : String
  description : String
  amount : Int
  category : String
  date : Int
  created_at : Int
deriving DecidableEq

/-- A row of the budget_categories table.  Modelled from the spec: this
table is not created in src (only used by the routes); the spec data model
gives an owner-scoped record with owner, name and amount, name unique per
owner, and the list route orders by created_at, so the row carries a serial
id and a creation timestamp like the transactions table. -/
structure BudgetCategory where
  id : Nat
  user_id : String
  name : String
  amount : Int
  created_at : Int
deriving DecidableEq

/-- The database state: the rows of the two tables in storage order and the
next values of their serial id sequences. -/
structure DB where
  transactions : List Transaction
  budgetCategories : List BudgetCategory
  nextTxId : Nat
  nextCatId : Nat
deriving DecidableEq

/-- A storage-layer error as surfaced by the pg driver: a stable SQLSTATE
code (23505 for a unique violation) and a message. -/
structure StorageErr where
  code : String
  msg : String
deriving DecidableEq

/-- The response of a route, one constructor per distinct response shape of
index.js. -/
inductive Resp where
  | unauthorized
  | missingFields (required : List String)
  | invalidAmount
  | invalidDate
  | notFound
  | duplicateTransaction (duplicateId : Nat)
  | duplicateCategory
  | createdTx (t : Transaction)
  | okTx (t : Transaction)
  | okTxList (l : List Transaction)
  | deletedTx (id : Int)
  | createdCat (c : BudgetCategory)
  | okCat (c : BudgetCategory)
  | okCatList (l : List BudgetCategory)
  | deletedCat (id : String)
  | err (status : Nat) (error : String) (message : Option String)
deriving DecidableEq

/-- The HTTP status of each response shape. -/
def Resp.status : Resp → Nat
  | .unauthorized => 401
  | .missingFields _ => 400
  | .invalidAmount => 400
  | .invalidDate => 400
  | .notFound => 404
  | .duplicateTransaction _ => 409
  | .duplicateCategory => 409
  | .createdTx _ => 201
  | .okTx _ => 200
  | .okTxList _ => 200
  | .deletedTx _ => 200
  | .createdCat _ => 201
  | .okCat _ => 200
  | .okCatList _ => 200
  | .deletedCat _ => 200
  | .err s _ _ => s

/-- The error handler middleware (index.js lines 381-398): a 23505 unique
violation becomes a 409 Conflict, everything else a 500 whose message is the
generic text when NODE_ENV is production and the error message otherwise. -/
def errorHandler (nodeEnv : String) (e : StorageErr) : Resp :=
  if e.code = "23505" then
    .err 409 "Conflict" (some "This transaction already exists")
  else
    .err 500 "Internal Server Error"
      (some (if nodeEnv = "production" then "An unexpected error occurred" else e.msg))

/-- requireAuth (index.js lines 86-94): the guard tests the truthiness of
req.auth?.userId, so a missing auth context and an empty userId both fail. -/
def resolvedUser : Option String → Option String
  | none => none
  | some u => if u = "" then none else some u

/-- The storage cast of a body value bound to an integer column: finite
numbers pass through, numeric strings are parsed, and everything else is
rejected by the storage layer (22P02 for an unparseable text, 23502 for the
NULL that undefined and null serialise to, against a NOT NULL column). -/
def pgIntParam : JsVal → Except StorageErr Int
  | .num (.finite a) => .ok a
  | .num _ => .error ⟨"22P02", "invalid input syntax for type integer"⟩
  | .str s =>
    match pgStrictInt s with
    | some a => .ok a
    | none => .error ⟨"22P02", "invalid input syntax for type integer"⟩
  | .bool _ => .error ⟨"22P02", "invalid input syntax for type integer"⟩
  | .nullv => .error ⟨"23502", "null value violates not-null constraint"⟩
  | .undef => .error ⟨"23502", "null value violates not-null constraint"⟩

/-- The WHERE clause of the duplicate-check query and of the UNIQUE
constraint, without the time window: exact match of the
(user_id, description, amount, category, date) tuple. -/
def tupleMatches (u descT : String) (a : Int) (catT : String) (d : Int)
    (t : Transaction) : Bool :=
  t.user_id == u && t.description == descT && t.amount == a &&
    t.category == catT && t.date == d

/-- The trailing window of the duplicate-check query:
created_at is strictly greater than NOW() minus one minute. -/
def inWindow (now : Int) (t : Transaction) : Bool :=
  decide (now - 60 < t.created_at)

/-- The rows returned by the duplicate-check query of POST /transactions
(index.js lines 255-264), in storage order. -/
def dupRows (now : Int) (u descT : String) (a : Int) (catT : String) (d : Int)
    (db : DB) : List Transaction :=
  db.transactions.filter fun t => tupleMatches u descT a catT d t && inWindow now t

/-- The required-field list of the transaction routes. -/
def requiredTxFields : List String := ["description", "amount", "category", "date"]

/-- The outcome of the validation stage of POST /transactions. -/
inductive PostCheck where
  | bad (r : Resp)
  | ok (descT : String) (n : JsNum) (catT : String) (d : Int)
deriving DecidableEq

/-- The validation stage of POST /transactions (index.js lines 228-251), in
source order: the combined truthiness test of the required fields (amount is
only compared against undefined), then typeof amount together with isNaN,
then the Date parse of the date field. -/
def postValidate (sp : String → Option Int)
    (description amount category date : JsVal) : PostCheck :=
  if !description.truthy || amount == JsVal.undef ||
      !category.truthy || !date.truthy then
    .bad (.missingFields requiredTxFields)
  else
    match amount with
    | .num n =>
      if n.isNan then .bad .invalidAmount
      else
        match jsNewDate sp date with
        | none => .bad .invalidDate
        | some d => .ok description.toText n category.toText d
    | _ => .bad .invalidAmount

/-- The storage stage of POST /transactions (index.js lines 253-292): BEGIN,
the duplicate-check query, the INSERT guarded by the UNIQUE constraint of
the schema, COMMIT; every error path runs ROLLBACK (so the returned state is
the entry state) and hands the error to the error middleware.  dupFault and
insFault inject a storage failure of the respective query; independently of
them, a non-finite amount that survived isNaN is serialised as the text
Infinity, which the integer input parse of the storage layer rejects when
the duplicate-check query is executed. -/
def postStorage (nodeEnv : String) (now : Int) (u : String)
    (descT : String) (n : JsNum) (catT : String) (d : Int)
    (dupFault insFault : Option StorageErr) (db : DB) : Resp × DB :=
  match dupFault with
  | some e => (errorHandler nodeEnv e, db)
  | none =>
    match n with
    | .finite a =>
      match dupRows now u descT a catT d db with
      | r :: _ => (.duplicateTransaction r.id, db)
      | [] =>
        match insFault with
        | some e => (errorHandler nodeEnv e, db)
        | none =>
          if db.transactions.any (tupleMatches u descT a catT d) then
            (errorHandler nodeEnv ⟨"23505", "duplicate key value violates unique constraint"⟩, db)
          else
            let t : Transaction := ⟨db.nextTxId, u, descT, a, catT, d, now⟩
            (.createdTx t,
             { db with transactions := db.transactions ++ [t], nextTxId := db.nextTxId + 1 })
    | _ => (errorHandler nodeEnv ⟨"22P02", "invalid input syntax for type integer"⟩, db)

/-- POST /transactions (index.js lines 224-293). -/
def postTransactions (nodeEnv : String) (sp : String → Option Int) (now : Int)
    (auth : Option String) (description amount category date : JsVal)
    (dupFault insFault : Option StorageErr) (db : DB) : Resp × DB :=
  match resolvedUser auth with
  | none => (.unauthorized, db)
  | some u =>
    match postValidate sp description amount category date with
    | .bad r => (r, db)
    | .ok descT n catT d => postStorage nodeEnv now u descT n catT d dupFault insFault db

/-- The ORDER BY of GET /transactions: date descending, then created_at
descending.  Stated as the relation that each element of the output bears to
every later element. -/
def TxOrd (t1 t2 : Transaction) : Prop :=
  t2.date < t1.date ∨ (t1.date = t2.date ∧ t2.created_at ≤ t1.created_at)

instance : DecidableRel TxOrd := fun t1 t2 => by
  unfold TxOrd; infer_instance

instance : IsTotal Transaction TxOrd where
  total t1 t2 := by
    unfold TxOrd
    rcases lt_trichotomy t1.date t2.date with h | h | h
    · exact Or.inr (Or.inl h)
    · rcases le_total t2.created_at t1.created_at with h2 | h2
      · exact Or.inl (Or.inr ⟨h, h2⟩)
      · exact Or.inr (Or.inr ⟨h.symm, h2⟩)
    · exact Or.inl (Or.inl h)

instance : IsTrans Transaction TxOrd where
  trans t1 t2 t3 h12 h23 := by
    unfold TxOrd at *
    rcases h12 with h12 | ⟨e12, c12⟩ <;> rcases h23 with h23 | ⟨e23, c23⟩
    · exact Or.inl (h23.trans h12)
    · exact Or.inl (e23 ▸ h12)
    · exact Or.inl (e12 ▸ h23)
    · exact Or.inr ⟨e12.trans e23, c23.trans c12⟩

/-- GET /transactions (index.js lines 195-221): owner filter, the inclusive
BETWEEN range added only when both startDate and endDate are supplied and
truthy, the equality filter on category when supplied and truthy, ordered by
date descending then created_at descending.  Absent or falsy query
parameters are modelled as none. -/
def getTransactions (auth : Option String)
    (startDate endDate : Option Int) (category : Option String)
    (db : DB) : Resp × DB :=
  match resolvedUser auth with
  | none => (.unauthorized, db)
  | some u =>
    let inRange : Transaction → Bool := fun t =>
      match startDate, endDate with
      | some s, some e => decide (s ≤ t.date) && decide (t.date ≤ e)
      | _, _ => true
    let inCat : Transaction → Bool := fun t =>
      match category with
      | some c => t.category == c
      | none => true
    let rows := db.transactions.filter fun t => t.user_id == u && inRange t && inCat t
    (.okTxList (rows.insertionSort TxOrd), db)

/-- PUT /transactions/:id (index.js lines 296-346): the required-field and
date checks of the body, then BEGIN, the owner-scoped SELECT of the id (the
text path parameter is cast by the storage layer), the 404 rollback when no
row matches, then the UPDATE (whose amount parameter is cast by the storage
layer and which is guarded by the UNIQUE tuple constraint), COMMIT.  Error
paths roll back and go to the error middleware. -/
def putTransactions (nodeEnv : String) (sp : String → Option Int)
    (auth : Option String) (idParam : String)
    (description amount category date : JsVal) (db : DB) : Resp × DB :=
  match resolvedUser auth with
  | none => (.unauthorized, db)
  | some u =>
    if !description.truthy || amount == JsVal.undef ||
        !category.truthy || !date.truthy then
      (.missingFields requiredTxFields, db)
    else
      match jsNewDate sp date with
      | none => (.invalidDate, db)
      | some d =>
        match pgStrictInt idParam with
        | none => (errorHandler nodeEnv ⟨"22P02", "invalid input syntax for type integer"⟩, db)
        | some i =>
          match db.transactions.filter fun t => (t.id : Int) == i && t.user_id == u with
          | [] => (.notFound, db)
          | r :: _ =>
            match pgIntParam amount with
            | .error e => (errorHandler nodeEnv e, db)
            | .ok a =>
              if db.transactions.any fun t =>
                  !((t.id : Int) == i && t.user_id == u) &&
                    tupleMatches u description.toText a category.toText d t then
                (errorHandler nodeEnv ⟨"23505", "duplicate key value violates unique constraint"⟩, db)
              else
                let upd : Transaction → Transaction := fun t =>
                  if (t.id : Int) == i && t.user_id == u then
                    { t with description := description.toText, amount := a,
                             category := category.toText, date := d }
                  else t
                (.okTx (upd r), { db with transactions := db.transactions.map upd })

/-- DELETE /transactions/:id (index.js lines 349-378): the path parameter
goes through parseInt; when parseInt yields NaN the driver serialises the
parameter as the text NaN, which the storage integer parse rejects, so the
route errors to the middleware instead of matching no row.  Otherwise the
owner-scoped DELETE runs and an empty RETURNING set is a 404. -/
def deleteTransactions (nodeEnv : String) (auth : Option String)
    (idParam : String) (db : DB) : Resp × DB :=
  match resolvedUser auth with
  | none => (.unauthorized, db)
  | some u =>
    match parseIntJs idParam with
    | none => (errorHandler nodeEnv ⟨"22P02", "invalid input syntax for type integer"⟩, db)
    | some n =>
      match db.transactions.filter fun t => (t.id : Int) == n && t.user_id == u with
      | [] => (.notFound, db)
      | _ :: _ =>
        (.deletedTx n,
         { db with transactions :=
            db.transactions.filter fun t => !((t.id : Int) == n && t.user_id == u) })

/-- The ORDER BY of GET /budget-categories: created_at descending. -/
def CatOrd (c1 c2 : BudgetCategory) : Prop :=
  c2.created_at ≤ c1.created_at

instance : DecidableRel CatOrd := fun c1 c2 => by
  unfold CatOrd; infer_instance

/-- GET /budget-categories (index.js lines 104-116). -/
def getBudgetCategories (auth : Option String) (db : DB) : Resp × DB :=
  match resolvedUser auth with
  | none => (.unauthorized, db)
  | some u =>
    let rows := db.budgetCategories.filter fun c => c.user_id == u
    (.okCatList (rows.insertionSort CatOrd), db)

/-- POST /budget-categories (index.js lines 119-143): truthiness of name and
amount compared against undefined, the INSERT guarded by the per-owner
unique name (a 23505 caught by the route itself as a 409), other storage
errors to the middleware. -/
def postBudgetCategories (nodeEnv : String) (now : Int) (auth : Option String)
    (name amount : JsVal) (db : DB) : Resp × DB :=
  match resolvedUser auth with
  | none => (.unauthorized, db)
  | some u =>
    if !name.truthy || amount == JsVal.undef then
      (.missingFields ["name", "amount"], db)
    else
      match pgIntParam amount with
      | .error e => (errorHandler nodeEnv e, db)
      | .ok a =>
        if db.budgetCategories.any fun c => c.user_id == u && c.name == name.toText then
          (.duplicateCategory, db)
        else
          let c : BudgetCategory := ⟨db.nextCatId, u, name.toText, a, now⟩
          (.createdCat c,
           { db with budgetCategories := db.budgetCategories ++ [c],
                     nextCatId := db.nextCatId + 1 })

/-- PUT /budget-categories/:id (index.js lines 146-169): validation, then
the owner-scoped UPDATE; an empty RETURNING set is a 404.  The amount and id
parameters are cast by the storage layer and the per-owner unique name
constraint guards the update (this route has no 23505 catch of its own, so a
violation goes to the middleware). -/
def putBudgetCategories (nodeEnv : String) (auth : Option String)
    (idParam : String) (name amount : JsVal) (db : DB) : Resp × DB :=
  match resolvedUser auth with
  | none => (.unauthorized, db)
  | some u =>
    if !name.truthy || amount == JsVal.undef then
      (.missingFields ["name", "amount"], db)
    else
      match pgIntParam amount with
      | .error e => (errorHandler nodeEnv e, db)
      | .ok a =>
        match pgStrictInt idParam with
        | none => (errorHandler nodeEnv ⟨"22P02", "invalid input syntax for type integer"⟩, db)
        | some i =>
          match db.budgetCategories.filter fun c => (c.id : Int) == i && c.user_id == u with
          | [] => (.notFound, db)
          | c :: _ =>
            if db.budgetCategories.any fun x =>
                !((x.id : Int) == i && x.user_id == u) &&
                  (x.user_id == u && x.name == name.toText) then
              (errorHandler nodeEnv ⟨"23505", "duplicate key value violates unique constraint"⟩, db)
            else
              let upd : BudgetCategory → BudgetCategory := fun x =>
                if (x.id : Int) == i && x.user_id == u then
                  { x with name := name.toText, amount := a }
                else x
              (.okCat (upd c), { db with budgetCategories := db.budgetCategories.map upd })

/-- DELETE /budget-categories/:id (index.js lines 172-190): the raw text
path parameter is cast by the storage layer and also echoed back in the
success response. -/
def deleteBudgetCategories (nodeEnv : String) (auth : Option String)
    (idParam : String) (db : DB) : Resp × DB :=
  match resolvedUser auth with
  | none => (.unauthorized, db)
  | some u =>
    match pgStrictInt idParam with
    | none => (errorHandler nodeEnv ⟨"22P02", "invalid input syntax for type integer"⟩, db)
    | some i =>
      match db.budgetCategories.filter fun c => (c.id : Int) == i && c.user_id == u with
      | [] => (.notFound, db)
      | _ :: _ =>
        (.deletedCat idParam,
         { db with budgetCategories :=
            db.budgetCategories.filter fun c => !((c.id : Int) == i && c.user_id == u) })

/-! ### Helper lemmas -/

theorem filter_and_nil {α} (p q : α → Bool) :
    ∀ l : List α, l.any p = false → l.filter (fun x => p x && q x) = []
  | [], _ => rfl
  | x :: xs, h => by
    simp only [List.any_cons, Bool.or_eq_false_iff] at h
    simp only [List.filter_cons, h.1, Bool.false_and, Bool.false_eq_true, if_false]
    exact filter_and_nil p q xs h.2

theorem resolvedUser_some {u : String} (h : u ≠ "") :
    resolvedUser (some u) = some u := by
  simp [resolvedUser, h]

theorem postValidate_finite (sp : String → Option Int)
    (description category date : JsVal) (a d : Int)
    (hd : description.truthy = true) (hc : category.truthy = true)
    (hdt : date.truthy = true) (hp : jsNewDate sp date = some d) :
    postValidate sp description (.num (.finite a)) category date =
      .ok description.toText (.finite a) category.toText d := by
  simp [postValidate, hd, hc, hdt, hp, JsNum.isNan]

theorem dupRows_nil_of_no_tuple (now : Int) (u descT : String) (a : Int)
    (catT : String) (d : Int) (db : DB)
    (h : db.transactions.any (tupleMatches u descT a catT d) = false) :
    dupRows now u descT a catT d db = [] :=
  filter_and_nil _ _ _ h

/-- The record inserted on the success path of POST /transactions. -/
def mkTx (now : Int) (u descT : String) (a : Int) (catT : String) (d : Int)
    (db : DB) : Transaction :=
  ⟨db.nextTxId, u, descT, a, catT, d, now⟩

theorem postStorage_created (nodeEnv : String) (now : Int) (u descT : String)
    (a : Int) (catT : String) (d : Int) (db : DB)
    (h : db.transactions.any (tupleMatches u descT a catT d) = false) :
    postStorage nodeEnv now u descT (.finite a) catT d none none db =
      (.createdTx (mkTx now u descT a catT d db),
       { db with transactions := db.transactions ++ [mkTx now u descT a catT d db],
                 nextTxId := db.nextTxId + 1 }) := by
  simp [postStorage, dupRows_nil_of_no_tuple now u descT a catT d db h, h, mkTx]

theorem postStorage_duplicate (nodeEnv : String) (now : Int) (u descT : String)
    (a : Int) (catT : String) (d : Int) (db : DB) (r : Transaction)
    (rest : List Transaction)
    (h : dupRows now u descT a catT d db = r :: rest) :
    postStorage nodeEnv now u descT (.finite a) catT d none none db =
      (.duplicateTransaction r.id, db) := by
  simp [postStorage, h]

theorem filter_nil_of_any_false {α} (p : α → Bool) :
    ∀ l : List α, l.any p = false → l.filter p = []
  | [], _ => rfl
  | x :: xs, h => by
    simp only [List.any_cons, Bool.or_eq_false_iff] at h
    simp only [List.filter_cons, h.1, Bool.false_eq_true, if_false]
    exact filter_nil_of_any_false p xs h.2

theorem tupleMatches_mkTx (now : Int) (u descT : String) (a : Int)
    (catT : String) (d : Int) (db : DB) :
    tupleMatches u descT a catT d (mkTx now u descT a catT d db) = true := by
  simp [tupleMatches, mkTx]

/-! ### Claim theorems -/

/-- Claim C8: every protected operation invoked without a resolved identity
returns the 401 Unauthorized response, a constant carrying no further
detail, and leaves the store untouched, before any data access: the result
does not depend on the database state at all. -/
theorem C8_unauthorized_before_data_access
    (nodeEnv : String) (sp : String → Option Int) (now : Int)
    (v1 v2 v3 v4 : JsVal) (f1 f2 : Option StorageErr)
    (s e : Option Int) (cat : Option String) (idParam : String) (db : DB) :
    postTransactions nodeEnv sp now none v1 v2 v3 v4 f1 f2 db = (.unauthorized, db) ∧
    getTransactions none s e cat db = (.unauthorized, db) ∧
    putTransactions nodeEnv sp none idParam v1 v2 v3 v4 db = (.unauthorized, db) ∧
    deleteTransactions nodeEnv none idParam db = (.unauthorized, db) ∧
    getBudgetCategories none db = (.unauthorized, db) ∧
    postBudgetCategories nodeEnv now none v1 v2 db = (.unauthorized, db) ∧
    putBudgetCategories nodeEnv none idParam v1 v2 db = (.unauthorized, db) ∧
    deleteBudgetCategories nodeEnv none idParam db = (.unauthorized, db) :=
  ⟨rfl, rfl, rfl, rfl, rfl, rfl, rfl, rfl⟩

/-- Claim C1: when a record with the identical (owner, description, amount,
category, date) tuple exists with created_at inside the trailing 60 seconds,
POST /transactions performs no write, rolls back and returns the 409
duplicate conflict carrying the identifier of the pre-existing record (first
conjunct); submitting the identical tuple twice within 60 seconds yields one
201 success and one 409 conflict naming the first record, and exactly one
stored row matches the tuple afterwards (second conjunct). -/
theorem C1_duplicate_window_guard :
    (∀ (nodeEnv : String) (sp : String → Option Int) (now : Int) (u : String)
       (description category date : JsVal) (a d : Int) (db : DB)
       (r : Transaction) (rest : List Transaction),
       u ≠ "" →
       description.truthy = true → category.truthy = true → date.truthy = true →
       jsNewDate sp date = some d →
       dupRows now u description.toText a category.toText d db = r :: rest →
       postTransactions nodeEnv sp now (some u) description (.num (.finite a))
           category date none none db = (.duplicateTransaction r.id, db)) ∧
    (∀ (nodeEnv : String) (sp : String → Option Int) (now1 now2 : Int) (u : String)
       (description category date : JsVal) (a d : Int) (db : DB),
       u ≠ "" →
       description.truthy = true → category.truthy = true → date.truthy = true →
       jsNewDate sp date = some d →
       db.transactions.any (tupleMatches u description.toText a category.toText d) = false →
       now2 - 60 < now1 →
       postTransactions nodeEnv sp now1 (some u) description (.num (.finite a))
           category date none none db =
         (.createdTx (mkTx now1 u description.toText a category.toText d db),
          { db with
              transactions :=
                db.transactions ++ [mkTx now1 u description.toText a category.toText d db],
              nextTxId := db.nextTxId + 1 }) ∧
       postTransactions nodeEnv sp now2 (some u) description (.num (.finite a))
           category date none none
           { db with
               transactions :=
                 db.transactions ++ [mkTx now1 u description.toText a category.toText d db],
               nextTxId := db.nextTxId + 1 } =
         (.duplicateTransaction (mkTx now1 u description.toText a category.toText d db).id,
          { db with
              transactions :=
                db.transactions ++ [mkTx now1 u description.toText a category.toText d db],
              nextTxId := db.nextTxId + 1 }) ∧
       ((db.transactions ++ [mkTx now1 u description.toText a category.toText d db]).filter
           (tupleMatches u description.toText a category.toText d)).length = 1) := by
  constructor
  · intro nodeEnv sp now u description category date a d db r rest hu hd hc hdt hp hdup
    simp only [postTransactions, resolvedUser_some hu,
      postValidate_finite sp description category date a d hd hc hdt hp]
    exact postStorage_duplicate nodeEnv now u description.toText a category.toText d db r rest hdup
  · intro nodeEnv sp now1 now2 u description category date a d db hu hd hc hdt hp hno hwin
    have hfirst :
        postTransactions nodeEnv sp now1 (some u) description (.num (.finite a))
            category date none none db =
          (.createdTx (mkTx now1 u description.toText a category.toText d db),
           { db with
               transactions :=
                 db.transactions ++ [mkTx now1 u description.toText a category.toText d db],
               nextTxId := db.nextTxId + 1 }) := by
      simp only [postTransactions, resolvedUser_some hu,
        postValidate_finite sp description category date a d hd hc hdt hp]
      exact postStorage_created nodeEnv now1 u description.toText a category.toText d db hno
    refine ⟨hfirst, ?_, ?_⟩
    · have hdup2 :
          dupRows now2 u description.toText a category.toText d
            { db with
                transactions :=
                  db.transactions ++ [mkTx now1 u description.toText a category.toText d db],
                nextTxId := db.nextTxId + 1 } =
            [mkTx now1 u description.toText a category.toText d db] := by
        unfold dupRows
        rw [List.filter_append]
        rw [filter_and_nil _ _ _ hno]
        simp only [List.filter_cons, List.filter_nil,
          tupleMatches_mkTx now1 u description.toText a category.toText d db,
          Bool.true_and, List.nil_append]
        simp only [inWindow, mkTx, decide_eq_true hwin, if_true]
      simp only [postTransactions, resolvedUser_some hu,
        postValidate_finite sp description category date a d hd hc hdt hp]
      exact postStorage_duplicate nodeEnv now2 u description.toText a category.toText d _ _ [] hdup2
    · rw [List.filter_append]
      rw [filter_nil_of_any_false _ _ hno]
      simp [tupleMatches_mkTx now1 u description.toText a category.toText d db]

/-- Witness for C1: a concrete double submission of the same tuple 30
seconds apart, against a store already holding the first row. -/
theorem C1_duplicate_window_guard_witness :
    (postTransactions "test" (fun _ => none) 1030 (some "alice") (.str "Coffee")
        (.num (.finite 450)) (.str "Food") (.num (.finite 100)) none none
        ⟨[⟨1, "alice", "Coffee", 450, "Food", 100, 1000⟩], [], 2, 1⟩).1 =
      .duplicateTransaction 1 := by
  have h := C1_duplicate_window_guard.1 "test" (fun _ => none) 1030 "alice"
      (.str "Coffee") (.str "Food") (.num (.finite 100)) 450 100
      ⟨[⟨1, "alice", "Coffee", 450, "Food", 100, 1000⟩], [], 2, 1⟩
      ⟨1, "alice", "Coffee", 450, "Food", 100, 1000⟩ []
      (by decide) (by decide) (by decide) (by decide) rfl (by decide)
  rw [h]

/-- Claim C2: an update or delete by identity A on a transaction or budget
category whose id is not held by any record of A (in particular a record
owned by a different identity B, ids being unique) yields the constant 404
NotFound response and leaves the store untouched; since the response is the
same constant produced when the id does not exist at all, the two cases are
indistinguishable, because the owner filter is part of the storage
predicate. -/
theorem C2_cross_owner_not_found
    (nodeEnv : String) (sp : String → Option Int) (A : String)
    (description amount category date name amount2 : JsVal) (d a2 : Int)
    (txIdParam catIdParam : String) (i j k : Int) (db : DB)
    (hA : A ≠ "")
    (hd : description.truthy = true) (hna : amount ≠ JsVal.undef)
    (hc : category.truthy = true) (hdt : date.truthy = true)
    (hp : jsNewDate sp date = some d)
    (hnm : name.truthy = true) (hna2 : pgIntParam amount2 = .ok a2)
    (hstrict : pgStrictInt txIdParam = some i)
    (hjs : parseIntJs txIdParam = some j)
    (hcat : pgStrictInt catIdParam = some k)
    (hti : ∀ t ∈ db.transactions, ((t.id : Int) = i ∨ (t.id : Int) = j) → t.user_id ≠ A)
    (hci : ∀ c ∈ db.budgetCategories, (c.id : Int) = k → c.user_id ≠ A) :
    putTransactions nodeEnv sp (some A) txIdParam description amount category date db
      = (.notFound, db) ∧
    deleteTransactions nodeEnv (some A) txIdParam db = (.notFound, db) ∧
    putBudgetCategories nodeEnv (some A) catIdParam name amount2 db = (.notFound, db) ∧
    deleteBudgetCategories nodeEnv (some A) catIdParam db = (.notFound, db) := by
  have hne : (amount == JsVal.undef) = false := beq_eq_false_iff_ne.mpr hna
  have hne2 : (amount2 == JsVal.undef) = false := by
    rw [beq_eq_false_iff_ne]
    intro h
    rw [h] at hna2
    simp [pgIntParam] at hna2
  have hfi : db.transactions.filter (fun t => (t.id : Int) == i && t.user_id == A) = [] := by
    rw [List.filter_eq_nil_iff]
    intro t ht
    simp only [Bool.and_eq_true, beq_iff_eq, not_and]
    intro hid
    exact hti t ht (Or.inl hid)
  have hfj : db.transactions.filter (fun t => (t.id : Int) == j && t.user_id == A) = [] := by
    rw [List.filter_eq_nil_iff]
    intro t ht
    simp only [Bool.and_eq_true, beq_iff_eq, not_and]
    intro hid
    exact hti t ht (Or.inr hid)
  have hfk : db.budgetCategories.filter (fun c => (c.id : Int) == k && c.user_id == A) = [] := by
    rw [List.filter_eq_nil_iff]
    intro c hcmem
    simp only [Bool.and_eq_true, beq_iff_eq, not_and]
    exact hci c hcmem
  refine ⟨?_, ?_, ?_, ?_⟩
  · simp [putTransactions, resolvedUser_some hA, hd, hc, hdt, hne, hp, hstrict, hfi]
  · simp [deleteTransactions, resolvedUser_some hA, hjs, hfj]
  · simp [putBudgetCategories, resolvedUser_some hA, hnm, hne2, hna2, hcat, hfk]
  · simp [deleteBudgetCategories, resolvedUser_some hA, hcat, hfk]

/-- Witness for C2: a store holding transaction 7 and budget category 3,
both owned by bob, probed by alice at those ids. -/
theorem C2_cross_owner_not_found_witness :
    putTransactions "test" (fun _ => none) (some "alice") "7" (.str "Lunch")
        (.num (.finite 9)) (.str "Food") (.num (.finite 5))
        ⟨[⟨7, "bob", "Coffee", 450, "Food", 100, 1000⟩],
         [⟨3, "bob", "Groceries", 200, 900⟩], 8, 4⟩
      = (.notFound,
         ⟨[⟨7, "bob", "Coffee", 450, "Food", 100, 1000⟩],
          [⟨3, "bob", "Groceries", 200, 900⟩], 8, 4⟩) ∧
    deleteTransactions "test" (some "alice") "7"
        ⟨[⟨7, "bob", "Coffee", 450, "Food", 100, 1000⟩],
         [⟨3, "bob", "Groceries", 200, 900⟩], 8, 4⟩
      = (.notFound,
         ⟨[⟨7, "bob", "Coffee", 450, "Food", 100, 1000⟩],
          [⟨3, "bob", "Groceries", 200, 900⟩], 8, 4⟩) ∧
    putBudgetCategories "test" (some "alice") "3" (.str "Rent") (.num (.finite 1))
        ⟨[⟨7, "bob", "Coffee", 450, "Food", 100, 1000⟩],
         [⟨3, "bob", "Groceries", 200, 900⟩], 8, 4⟩
      = (.notFound,
         ⟨[⟨7, "bob", "Coffee", 450, "Food", 100, 1000⟩],
          [⟨3, "bob", "Groceries", 200, 900⟩], 8, 4⟩) ∧
    deleteBudgetCategories "test" (some "alice") "3"
        ⟨[⟨7, "bob", "Coffee", 450, "Food", 100, 1000⟩],
         [⟨3, "bob", "Groceries", 200, 900⟩], 8, 4⟩
      = (.notFound,
         ⟨[⟨7, "bob", "Coffee", 450, "Food", 100, 1000⟩],
          [⟨3, "bob", "Groceries", 200, 900⟩], 8, 4⟩) := by
  apply C2_cross_owner_not_found "test" (fun _ => none) "alice" (.str "Lunch")
    (.num (.finite 9)) (.str "Food") (.num (.finite 5)) (.str "Rent")
    (.num (.finite 1)) 5 1 "7" "3" 7 7 3 <;> first
  | rfl
  | decide

/-- Claim C6: listing with a date-range filter returns only the records of
the caller whose date lies within the inclusive bounds, further narrowed by
the category filter when supplied, ordered by date descending and then by
creation time descending; the store is left untouched. -/
theorem C6_list_range_owner_ordered
    (u : String) (s e : Int) (category : Option String) (db : DB)
    (hu : u ≠ "") :
    ∃ l, getTransactions (some u) (some s) (some e) category db = (.okTxList l, db) ∧
      (∀ t ∈ l, t.user_id = u ∧ s ≤ t.date ∧ t.date ≤ e ∧
        ∀ c, category = some c → t.category = c) ∧
      l.Pairwise TxOrd := by
  have hu' : resolvedUser (some u) = some u := resolvedUser_some hu
  simp only [getTransactions, hu']
  refine ⟨_, rfl, ?_, ?_⟩
  · intro t ht
    rw [List.mem_insertionSort] at ht
    have := List.mem_filter.mp ht
    rcases this with ⟨-, hpred⟩
    simp only [Bool.and_eq_true, beq_iff_eq, decide_eq_true_eq] at hpred
    refine ⟨hpred.1.1, hpred.1.2.1, hpred.1.2.2, ?_⟩
    intro c hcat
    have := hpred.2
    rw [hcat] at this
    simpa using this
  · exact List.sorted_insertionSort TxOrd _

/-- Witness for C6: a concrete store with rows of two owners and dates
inside and outside the range. -/
theorem C6_list_range_owner_ordered_witness :
    ∃ l, getTransactions (some "alice") (some 10) (some 20) (some "Food")
        ⟨[⟨1, "alice", "Coffee", 450, "Food", 15, 1000⟩,
          ⟨2, "bob", "Tea", 300, "Food", 15, 1001⟩,
          ⟨3, "alice", "Rent", 900, "Housing", 15, 1002⟩,
          ⟨4, "alice", "Bagel", 250, "Food", 25, 1003⟩], [], 5, 1⟩ =
      (.okTxList l,
       ⟨[⟨1, "alice", "Coffee", 450, "Food", 15, 1000⟩,
         ⟨2, "bob", "Tea", 300, "Food", 15, 1001⟩,
         ⟨3, "alice", "Rent", 900, "Housing", 15, 1002⟩,
         ⟨4, "alice", "Bagel", 250, "Food", 25, 1003⟩], [], 5, 1⟩) ∧
      (∀ t ∈ l, t.user_id = "alice" ∧ 10 ≤ t.date ∧ t.date ≤ 20 ∧
        ∀ c, (some "Food" : Option String) = some c → t.category = c) ∧
      l.Pairwise TxOrd :=
  C6_list_range_owner_ordered "alice" 10 20 (some "Food")
    ⟨[⟨1, "alice", "Coffee", 450, "Food", 15, 1000⟩,
      ⟨2, "bob", "Tea", 300, "Food", 15, 1001⟩,
      ⟨3, "alice", "Rent", 900, "Housing", 15, 1002⟩,
      ⟨4, "alice", "Bagel", 250, "Food", 25, 1003⟩], [], 5, 1⟩
    (by decide)

theorem postTransactions_bad (nodeEnv : String) (sp : String → Option Int)
    (now : Int) (u : String) (description amount category date : JsVal)
    (f1 f2 : Option StorageErr) (db : DB) (r : Resp) (hu : u ≠ "")
    (h : postValidate sp description amount category date = .bad r) :
    postTransactions nodeEnv sp now (some u) description amount category date f1 f2 db
      = (r, db) := by
  simp [postTransactions, resolvedUser_some hu, h]

/-- Counterexample to claim C3 as stated: the amount Infinity (reachable
from express.json since JSON.parse maps the literal 1e999 to Infinity) is
not a finite numeric value, yet the validation of POST /transactions only
tests typeof and isNaN, both of which Infinity passes; the request reaches
the storage stage and fails there as a 500 internal error instead of the
claimed 400 ValidationError. -/
theorem C3_counterexample :
    (postTransactions "production" (fun _ => none) 0 (some "alice") (.str "Coffee")
        (.num (.inf true)) (.str "Food") (.num (.finite 1)) none none
        ⟨[], [], 1, 1⟩).1
      = .err 500 "Internal Server Error" (some "An unexpected error occurred") ∧
    (postTransactions "production" (fun _ => none) 0 (some "alice") (.str "Coffee")
        (.num (.inf true)) (.str "Food") (.num (.finite 1)) none none
        ⟨[], [], 1, 1⟩).1.status ≠ 400 ∧
    (JsNum.inf true).isNan = false := by
  decide

/-- Claim C3 amended: the checks the code actually performs do fail with a
400 before any storage access and leave the store untouched, independently
of the store and of any injected storage fault: a missing or falsy required
field yields the 400 with the list of required fields, an amount that is not
of number type or is NaN yields the 400 invalid amount, and a date that does
not parse yields the 400 invalid date; only a non-finite Infinity amount
escapes validation and reaches storage. -/
theorem C3_validation_before_storage :
    (∀ (nodeEnv : String) (sp : String → Option Int) (now : Int) (u : String)
       (description amount category date : JsVal) (f1 f2 : Option StorageErr) (db : DB),
       u ≠ "" →
       (!description.truthy || amount == JsVal.undef ||
         !category.truthy || !date.truthy) = true →
       postTransactions nodeEnv sp now (some u) description amount category date f1 f2 db
         = (.missingFields requiredTxFields, db)) ∧
    (∀ (nodeEnv : String) (sp : String → Option Int) (now : Int) (u : String)
       (description amount category date : JsVal) (f1 f2 : Option StorageErr) (db : DB),
       u ≠ "" →
       (!description.truthy || amount == JsVal.undef ||
         !category.truthy || !date.truthy) = false →
       (∀ n, amount = .num n → n.isNan = true) →
       postTransactions nodeEnv sp now (some u) description amount category date f1 f2 db
         = (.invalidAmount, db)) ∧
    (∀ (nodeEnv : String) (sp : String → Option Int) (now : Int) (u : String)
       (description category date : JsVal) (n : JsNum) (f1 f2 : Option StorageErr) (db : DB),
       u ≠ "" →
       (!description.truthy || JsVal.num n == JsVal.undef ||
         !category.truthy || !date.truthy) = false →
       n.isNan = false →
       jsNewDate sp date = none →
       postTransactions nodeEnv sp now (some u) description (.num n) category date f1 f2 db
         = (.invalidDate, db)) := by
  refine ⟨?_, ?_, ?_⟩
  · intro nodeEnv sp now u description amount category date f1 f2 db hu hcond
    exact postTransactions_bad _ _ _ _ _ _ _ _ _ _ _ _ hu (by simp [postValidate, hcond])
  · intro nodeEnv sp now u description amount category date f1 f2 db hu hcond hnan
    refine postTransactions_bad _ _ _ _ _ _ _ _ _ _ _ _ hu ?_
    unfold postValidate
    rw [hcond]
    simp only [Bool.false_eq_true, if_false]
    match amount, hnan with
    | .undef, _ => rfl
    | .nullv, _ => rfl
    | .bool b, _ => rfl
    | .str s, _ => rfl
    | .num n, hnan => simp [hnan n rfl]
  · intro nodeEnv sp now u description category date n f1 f2 db hu hcond hnan hdate
    refine postTransactions_bad _ _ _ _ _ _ _ _ _ _ _ _ hu ?_
    unfold postValidate
    rw [hcond]
    simp [hnan, hdate]

/-- Witness for the amended C3: a concrete missing description, a concrete
NaN amount and a concrete unparseable date each produce their 400. -/
theorem C3_validation_before_storage_witness :
    postTransactions "test" (fun _ => none) 0 (some "alice") JsVal.undef
        (.num (.finite 1)) (.str "Food") (.num (.finite 1)) none none ⟨[], [], 1, 1⟩
      = (.missingFields requiredTxFields, ⟨[], [], 1, 1⟩) ∧
    postTransactions "test" (fun _ => none) 0 (some "alice") (.str "Coffee")
        (.num .nan) (.str "Food") (.num (.finite 1)) none none ⟨[], [], 1, 1⟩
      = (.invalidAmount, ⟨[], [], 1, 1⟩) ∧
    postTransactions "test" (fun _ => none) 0 (some "alice") (.str "Coffee")
        (.num (.finite 1)) (.str "Food") (.str "not a date") none none ⟨[], [], 1, 1⟩
      = (.invalidDate, ⟨[], [], 1, 1⟩) :=
  ⟨C3_validation_before_storage.1 "test" (fun _ => none) 0 "alice" JsVal.undef
      (.num (.finite 1)) (.str "Food") (.num (.finite 1)) none none ⟨[], [], 1, 1⟩
      (by decide) (by decide),
   C3_validation_before_storage.2.1 "test" (fun _ => none) 0 "alice" (.str "Coffee")
      (.num .nan) (.str "Food") (.num (.finite 1)) none none ⟨[], [], 1, 1⟩
      (by decide) (by decide) (by intro n h; cases h; rfl),
   C3_validation_before_storage.2.2 "test" (fun _ => none) 0 "alice" (.str "Coffee")
      (.str "Food") (.str "not a date") (.finite 1) none none ⟨[], [], 1, 1⟩
      (by decide) (by decide) (by decide) rfl⟩

theorem postTransactions_write_shape (nodeEnv : String) (sp : String → Option Int)
    (now : Int) (auth : Option String) (description amount category date : JsVal)
    (f1 f2 : Option StorageErr) (db : DB) :
    (postTransactions nodeEnv sp now auth description amount category date f1 f2 db).2 = db ∨
    ∃ t, (postTransactions nodeEnv sp now auth description amount category date f1 f2 db).1
      = .createdTx t := by
  unfold postTransactions postStorage
  (repeat' split) <;> first
    | exact Or.inl rfl
    | exact Or.inr ⟨_, rfl⟩

/-- Claim C4: a storage error injected at the duplicate-check query or at
the insert leaves the store exactly as it was (the transaction rolls back)
and the response is produced by the error middleware; the middleware maps
the stable unique-violation code 23505 to a 409 Conflict and every other
code to a 500 whose message detail is suppressed in production; and in no
non-201 outcome does the store change, so no partial write is observable. -/
theorem C4_storage_error_paths :
    (∀ (nodeEnv : String) (sp : String → Option Int) (now : Int) (u : String)
       (description amount category date : JsVal) (descT : String) (n : JsNum)
       (catT : String) (d : Int) (e : StorageErr) (f2 : Option StorageErr) (db : DB),
       u ≠ "" →
       postValidate sp description amount category date = .ok descT n catT d →
       postTransactions nodeEnv sp now (some u) description amount category date
           (some e) f2 db = (errorHandler nodeEnv e, db)) ∧
    (∀ (nodeEnv : String) (sp : String → Option Int) (now : Int) (u : String)
       (description amount category date : JsVal) (descT : String) (a : Int)
       (catT : String) (d : Int) (e : StorageErr) (db : DB),
       u ≠ "" →
       postValidate sp description amount category date = .ok descT (.finite a) catT d →
       dupRows now u descT a catT d db = [] →
       postTransactions nodeEnv sp now (some u) description amount category date
           none (some e) db = (errorHandler nodeEnv e, db)) ∧
    ((∀ (nodeEnv m : String),
        errorHandler nodeEnv ⟨"23505", m⟩
          = .err 409 "Conflict" (some "This transaction already exists")) ∧
     (∀ (nodeEnv : String) (e : StorageErr), e.code ≠ "23505" →
        errorHandler nodeEnv e = .err 500 "Internal Server Error"
          (some (if nodeEnv = "production" then "An unexpected error occurred" else e.msg)))) ∧
    (∀ (nodeEnv : String) (sp : String → Option Int) (now : Int) (auth : Option String)
       (description amount category date : JsVal) (f1 f2 : Option StorageErr) (db : DB),
       (postTransactions nodeEnv sp now auth description amount category date f1 f2 db).1.status
           ≠ 201 →
       (postTransactions nodeEnv sp now auth description amount category date f1 f2 db).2 = db) := by
  refine ⟨?_, ?_, ⟨?_, ?_⟩, ?_⟩
  · intro nodeEnv sp now u description amount category date descT n catT d e f2 db hu hval
    simp [postTransactions, resolvedUser_some hu, hval, postStorage]
  · intro nodeEnv sp now u description amount category date descT a catT d e db hu hval hdup
    simp [postTransactions, resolvedUser_some hu, hval, postStorage, hdup]
  · intro nodeEnv m
    simp [errorHandler]
  · intro nodeEnv e he
    simp [errorHandler, he]
  · intro nodeEnv sp now auth description amount category date f1 f2 db hst
    rcases postTransactions_write_shape nodeEnv sp now auth description amount
        category date f1 f2 db with h | ⟨t, h⟩
    · exact h
    · exact absurd (by rw [h]; rfl) hst

/-- Witness for C4: a concrete injected failure at each query, the two
middleware mappings at concrete errors, and an unchanged store after a
concrete 409 outcome. -/
theorem C4_storage_error_paths_witness :
    postTransactions "production" (fun _ => none) 0 (some "alice") (.str "Coffee")
        (.num (.finite 450)) (.str "Food") (.num (.finite 1)) (some ⟨"XX000", "boom"⟩)
        none ⟨[], [], 1, 1⟩
      = (errorHandler "production" ⟨"XX000", "boom"⟩, ⟨[], [], 1, 1⟩) ∧
    postTransactions "production" (fun _ => none) 0 (some "alice") (.str "Coffee")
        (.num (.finite 450)) (.str "Food") (.num (.finite 1)) none
        (some ⟨"XX000", "boom"⟩) ⟨[], [], 1, 1⟩
      = (errorHandler "production" ⟨"XX000", "boom"⟩, ⟨[], [], 1, 1⟩) ∧
    errorHandler "production" ⟨"23505", "dup"⟩
      = .err 409 "Conflict" (some "This transaction already exists") ∧
    errorHandler "production" ⟨"XX000", "boom"⟩
      = .err 500 "Internal Server Error" (some "An unexpected error occurred") ∧
    (postTransactions "test" (fun _ => none) 1000 (some "alice") (.str "Coffee")
        (.num (.finite 450)) (.str "Food") (.num (.finite 100)) none none
        ⟨[⟨1, "alice", "Coffee", 450, "Food", 100, 0⟩], [], 2, 1⟩).2
      = ⟨[⟨1, "alice", "Coffee", 450, "Food", 100, 0⟩], [], 2, 1⟩ := by
  refine ⟨?_, ?_, ?_, ?_, ?_⟩
  · exact C4_storage_error_paths.1 "production" (fun _ => none) 0 "alice" (.str "Coffee")
      (.num (.finite 450)) (.str "Food") (.num (.finite 1)) "Coffee" (.finite 450)
      "Food" 1 ⟨"XX000", "boom"⟩ none ⟨[], [], 1, 1⟩ (by decide) rfl
  · exact C4_storage_error_paths.2.1 "production" (fun _ => none) 0 "alice" (.str "Coffee")
      (.num (.finite 450)) (.str "Food") (.num (.finite 1)) "Coffee" 450
      "Food" 1 ⟨"XX000", "boom"⟩ ⟨[], [], 1, 1⟩ (by decide) rfl (by decide)
  · exact C4_storage_error_paths.2.2.1.1 "production" "dup"
  · have h := C4_storage_error_paths.2.2.1.2 "production" ⟨"XX000", "boom"⟩ (by decide)
    simpa using h
  · exact C4_storage_error_paths.2.2.2 "test" (fun _ => none) 1000 (some "alice")
      (.str "Coffee") (.num (.finite 450)) (.str "Food") (.num (.finite 100)) none none
      ⟨[⟨1, "alice", "Coffee", 450, "Food", 100, 0⟩], [], 2, 1⟩ (by decide)

/-- Counterexample to claim C5 as stated: a valid input with no
near-duplicate inside the 60-second window (the only identical tuple was
created 1000 seconds ago) is still not inserted, because the schema-level
UNIQUE(user_id, description, amount, category, date) constraint is not
time-limited: the insert raises 23505 and the middleware answers 409, not
the claimed 201. -/
theorem C5_counterexample :
    dupRows 1000 "alice" "Coffee" 450 "Food" 100
        ⟨[⟨1, "alice", "Coffee", 450, "Food", 100, 0⟩], [], 2, 1⟩ = [] ∧
    (postTransactions "test" (fun _ => none) 1000 (some "alice") (.str "Coffee")
        (.num (.finite 450)) (.str "Food") (.num (.finite 100)) none none
        ⟨[⟨1, "alice", "Coffee", 450, "Food", 100, 0⟩], [], 2, 1⟩).1
      = .err 409 "Conflict" (some "This transaction already exists") ∧
    (postTransactions "test" (fun _ => none) 1000 (some "alice") (.str "Coffee")
        (.num (.finite 450)) (.str "Food") (.num (.finite 100)) none none
        ⟨[⟨1, "alice", "Coffee", 450, "Food", 100, 0⟩], [], 2, 1⟩).1.status ≠ 201 := by
  decide

/-- Claim C5 amended: for every valid input whose tuple matches no stored
record at all (which implies no near-duplicate in the window), the operation
inserts the record, commits, and returns 201 with the persisted record equal
to the input fields plus the server-assigned identifier and creation
timestamp; a subsequent owner-scoped read (GET /transactions without
filters) returns a list containing that same record. -/
theorem C5_create_then_read
    (nodeEnv : String) (sp : String → Option Int) (now : Int) (u : String)
    (description category date : JsVal) (a d : Int) (db : DB)
    (hu : u ≠ "")
    (hd : description.truthy = true) (hc : category.truthy = true)
    (hdt : date.truthy = true) (hp : jsNewDate sp date = some d)
    (hno : db.transactions.any
      (tupleMatches u description.toText a category.toText d) = false) :
    postTransactions nodeEnv sp now (some u) description (.num (.finite a))
        category date none none db =
      (.createdTx (mkTx now u description.toText a category.toText d db),
       { db with
           transactions :=
             db.transactions ++ [mkTx now u description.toText a category.toText d db],
           nextTxId := db.nextTxId + 1 }) ∧
    ∃ l, getTransactions (some u) none none none
        { db with
            transactions :=
              db.transactions ++ [mkTx now u description.toText a category.toText d db],
            nextTxId := db.nextTxId + 1 } =
      (.okTxList l,
       { db with
           transactions :=
             db.transactions ++ [mkTx now u description.toText a category.toText d db],
           nextTxId := db.nextTxId + 1 }) ∧
      mkTx now u description.toText a category.toText d db ∈ l := by
  constructor
  · simp only [postTransactions, resolvedUser_some hu,
      postValidate_finite sp description category date a d hd hc hdt hp]
    exact postStorage_created nodeEnv now u description.toText a category.toText d db hno
  · have hu' : resolvedUser (some u) = some u := resolvedUser_some hu
    simp only [getTransactions, hu']
    refine ⟨_, rfl, ?_⟩
    rw [List.mem_insertionSort, List.mem_filter]
    constructor
    · exact List.mem_append_right _ (List.mem_singleton.mpr rfl)
    · simp [mkTx]

/-- Witness for the amended C5: a concrete fresh tuple against a store that
already holds an unrelated row. -/
theorem C5_create_then_read_witness :
    postTransactions "test" (fun _ => none) 1000 (some "alice") (.str "Coffee")
        (.num (.finite 450)) (.str "Food") (.num (.finite 100)) none none
        ⟨[⟨1, "alice", "Tea", 300, "Food", 90, 500⟩], [], 2, 1⟩ =
      (.createdTx (mkTx 1000 "alice" "Coffee" 450 "Food" 100
          ⟨[⟨1, "alice", "Tea", 300, "Food", 90, 500⟩], [], 2, 1⟩),
       { transactions := [⟨1, "alice", "Tea", 300, "Food", 90, 500⟩] ++
           [mkTx 1000 "alice" "Coffee" 450 "Food" 100
             ⟨[⟨1, "alice", "Tea", 300, "Food", 90, 500⟩], [], 2, 1⟩],
         budgetCategories := [], nextTxId := 3, nextCatId := 1 }) ∧
    ∃ l, getTransactions (some "alice") none none none
        { transactions := [⟨1, "alice", "Tea", 300, "Food", 90, 500⟩] ++
            [mkTx 1000 "alice" "Coffee" 450 "Food" 100
              ⟨[⟨1, "alice", "Tea", 300, "Food", 90, 500⟩], [], 2, 1⟩],
          budgetCategories := [], nextTxId := 3, nextCatId := 1 } =
      (.okTxList l,
       { transactions := [⟨1, "alice", "Tea", 300, "Food", 90, 500⟩] ++
           [mkTx 1000 "alice" "Coffee" 450 "Food" 100
             ⟨[⟨1, "alice", "Tea", 300, "Food", 90, 500⟩], [], 2, 1⟩],
         budgetCategories := [], nextTxId := 3, nextCatId := 1 }) ∧
      mkTx 1000 "alice" "Coffee" 450 "Food" 100
          ⟨[⟨1, "alice", "Tea", 300, "Food", 90, 500⟩], [], 2, 1⟩ ∈ l :=
  C5_create_then_read "test" (fun _ => none) 1000 "alice" (.str "Coffee")
    (.str "Food") (.num (.finite 100)) 450 100
    ⟨[⟨1, "alice", "Tea", 300, "Food", 90, 500⟩], [], 2, 1⟩
    (by decide) (by decide) (by decide) (by decide) rfl (by decide)

theorem tupleMatches_mkTx_ne (now : Int) (u descT1 : String) (a1 : Int)
    (catT1 : String) (d1 : Int) (descT2 : String) (a2 : Int) (catT2 : String)
    (d2 : Int) (db : DB)
    (hne : (descT1, a1, catT1, d1) ≠ (descT2, a2, catT2, d2)) :
    tupleMatches u descT2 a2 catT2 d2 (mkTx now u descT1 a1 catT1 d1 db) = false := by
  rw [Bool.eq_false_iff]
  intro h
  simp only [tupleMatches, mkTx, Bool.and_eq_true, beq_iff_eq] at h
  obtain ⟨⟨⟨⟨-, h2⟩, h3⟩, h4⟩, h5⟩ := h
  exact hne (by rw [h2, h3, h4, h5])

theorem postStorage_write_shape (nodeEnv : String) (now : Int) (u descT : String)
    (a : Int) (catT : String) (d : Int) (db : DB) :
    (postStorage nodeEnv now u descT (.finite a) catT d none none db).2 = db ∨
    (postStorage nodeEnv now u descT (.finite a) catT d none none db).2
      = { db with transactions := db.transactions ++ [mkTx now u descT a catT d db],
                  nextTxId := db.nextTxId + 1 } := by
  cases hrows : dupRows now u descT a catT d db with
  | cons r rest => left; simp [postStorage, hrows]
  | nil =>
    cases hany : db.transactions.any (tupleMatches u descT a catT d) with
    | true => left; simp [postStorage, hrows, hany]
    | false => right; simp [postStorage, hrows, hany, mkTx]

theorem postStorage_no_dup (nodeEnv : String) (now : Int) (u descT : String)
    (a : Int) (catT : String) (d : Int) (db : DB)
    (h : dupRows now u descT a catT d db = []) (i : Nat) :
    (postStorage nodeEnv now u descT (.finite a) catT d none none db).1
      ≠ .duplicateTransaction i := by
  simp only [postStorage, h]
  split <;> simp [errorHandler]

theorem postTransactions_no_dup (nodeEnv : String) (sp : String → Option Int)
    (now : Int) (u : String) (description category date : JsVal) (a d : Int)
    (db : DB) (hu : u ≠ "")
    (hd : description.truthy = true) (hc : category.truthy = true)
    (hdt : date.truthy = true) (hp : jsNewDate sp date = some d)
    (hdup : dupRows now u description.toText a category.toText d db = [])
    (i : Nat) :
    (postTransactions nodeEnv sp now (some u) description (.num (.finite a))
        category date none none db).1
      ≠ .duplicateTransaction i := by
  simp only [postTransactions, resolvedUser_some hu,
    postValidate_finite sp description category date a d hd hc hdt hp]
  exact postStorage_no_dup nodeEnv now u description.toText a category.toText d db hdup i

/-- Claim C7: two requests of the same owner whose validated
(description, amount, category, date) tuples differ in at least one field
never make the second request trip the duplicate guard, whatever the first
request did to the store, because the window check matches only on exact
equality of the full tuple (a pre-existing in-window match of the second
tuple being excluded). -/
theorem C7_different_tuple_not_duplicate
    (nodeEnv : String) (sp : String → Option Int) (now1 now2 : Int) (u : String)
    (desc1 cat1 date1 desc2 cat2 date2 : JsVal) (a1 a2 d1 d2 : Int) (db : DB)
    (hu : u ≠ "")
    (hd1 : desc1.truthy = true) (hc1 : cat1.truthy = true) (hdt1 : date1.truthy = true)
    (hp1 : jsNewDate sp date1 = some d1)
    (hd2 : desc2.truthy = true) (hc2 : cat2.truthy = true) (hdt2 : date2.truthy = true)
    (hp2 : jsNewDate sp date2 = some d2)
    (hne : (desc1.toText, a1, cat1.toText, d1) ≠ (desc2.toText, a2, cat2.toText, d2))
    (hno2 : dupRows now2 u desc2.toText a2 cat2.toText d2 db = []) (i : Nat) :
    (postTransactions nodeEnv sp now2 (some u) desc2 (.num (.finite a2)) cat2 date2
        none none
        (postTransactions nodeEnv sp now1 (some u) desc1 (.num (.finite a1)) cat1 date1
          none none db).2).1
      ≠ .duplicateTransaction i := by
  have hfst :
      (postTransactions nodeEnv sp now1 (some u) desc1 (.num (.finite a1)) cat1 date1
          none none db).2
        = (postStorage nodeEnv now1 u desc1.toText (.finite a1) cat1.toText d1
            none none db).2 := by
    simp only [postTransactions, resolvedUser_some hu,
      postValidate_finite sp desc1 cat1 date1 a1 d1 hd1 hc1 hdt1 hp1]
  have hdup1 :
      dupRows now2 u desc2.toText a2 cat2.toText d2
        (postTransactions nodeEnv sp now1 (some u) desc1 (.num (.finite a1)) cat1 date1
          none none db).2 = [] := by
    rw [hfst]
    rcases postStorage_write_shape nodeEnv now1 u desc1.toText a1 cat1.toText d1
        db with hsh | hsh
    · rw [hsh]; exact hno2
    · rw [hsh]
      unfold dupRows at hno2 ⊢
      rw [List.filter_append, hno2]
      simp [tupleMatches_mkTx_ne now1 u desc1.toText a1 cat1.toText d1
        desc2.toText a2 cat2.toText d2 db hne]
  exact postTransactions_no_dup nodeEnv sp now2 u desc2 cat2 date2 a2 d2 _
    hu hd2 hc2 hdt2 hp2 hdup1 i

/-- Witness for C7: a second submission differing only in amount, 10 seconds
after the first one, is not reported as a duplicate. -/
theorem C7_different_tuple_not_duplicate_witness :
    (postTransactions "test" (fun _ => none) 1010 (some "alice") (.str "Coffee")
        (.num (.finite 451)) (.str "Food") (.num (.finite 100)) none none
        (postTransactions "test" (fun _ => none) 1000 (some "alice") (.str "Coffee")
          (.num (.finite 450)) (.str "Food") (.num (.finite 100)) none none
          ⟨[], [], 1, 1⟩).2).1
      ≠ .duplicateTransaction 1 :=
  C7_different_tuple_not_duplicate "test" (fun _ => none) 1000 1010 "alice"
    (.str "Coffee") (.str "Food") (.num (.finite 100))
    (.str "Coffee") (.str "Food") (.num (.finite 100)) 450 451 100 100
    ⟨[], [], 1, 1⟩ (by decide) (by decide) (by decide) (by decide) rfl
    (by decide) (by decide) (by decide) rfl (by decide) (by decide) 1

theorem errorHandler_ne_missing (nodeEnv : String) (e : StorageErr)
    (l : List String) : errorHandler nodeEnv e ≠ .missingFields l := by
  unfold errorHandler
  split <;> simp

theorem postStorage_not_missing (nodeEnv : String) (now : Int) (u descT : String)
    (n : JsNum) (catT : String) (d : Int) (f1 f2 : Option StorageErr) (db : DB)
    (l : List String) :
    (postStorage nodeEnv now u descT n catT d f1 f2 db).1 ≠ .missingFields l := by
  unfold postStorage
  (repeat' split) <;> simp [errorHandler_ne_missing]

theorem postBudget_not_missing (nodeEnv : String) (now : Int) (u : String)
    (name amount : JsVal) (db : DB) (l : List String) (hu : u ≠ "")
    (hnm : name.truthy = true) (hne : (amount == JsVal.undef) = false) :
    (postBudgetCategories nodeEnv now (some u) name amount db).1
      ≠ .missingFields l := by
  simp only [postBudgetCategories, resolvedUser_some hu, hnm, hne,
    Bool.not_true, Bool.false_or, Bool.false_eq_true, if_false]
  (repeat' split) <;> simp [errorHandler_ne_missing]

theorem putBudget_not_missing (nodeEnv : String) (u idParam : String)
    (name amount : JsVal) (db : DB) (l : List String) (hu : u ≠ "")
    (hnm : name.truthy = true) (hne : (amount == JsVal.undef) = false) :
    (putBudgetCategories nodeEnv (some u) idParam name amount db).1
      ≠ .missingFields l := by
  simp only [putBudgetCategories, resolvedUser_some hu, hnm, hne,
    Bool.not_true, Bool.false_or, Bool.false_eq_true, if_false]
  (repeat' split) <;> simp [errorHandler_ne_missing]

/-- Claim C9: an amount of exactly 0 passes the required-field check of the
transaction and budget-category routes, because amount is compared only
against undefined, while an empty-string description, category or name is
rejected as a missing required field with the 400 response, because those
fields are tested for truthiness. -/
theorem C9_truthiness_of_required_fields :
    (∀ (nodeEnv : String) (sp : String → Option Int) (now : Int) (u : String)
       (description category date : JsVal) (f1 f2 : Option StorageErr) (db : DB)
       (l : List String),
       u ≠ "" → description.truthy = true → category.truthy = true →
       date.truthy = true →
       (postTransactions nodeEnv sp now (some u) description (.num (.finite 0))
           category date f1 f2 db).1 ≠ .missingFields l) ∧
    (∀ (nodeEnv : String) (sp : String → Option Int) (now : Int) (u : String)
       (amount category date : JsVal) (f1 f2 : Option StorageErr) (db : DB),
       u ≠ "" →
       postTransactions nodeEnv sp now (some u) (.str "") amount category date f1 f2 db
         = (.missingFields requiredTxFields, db)) ∧
    (∀ (nodeEnv : String) (sp : String → Option Int) (now : Int) (u : String)
       (description amount date : JsVal) (f1 f2 : Option StorageErr) (db : DB),
       u ≠ "" →
       postTransactions nodeEnv sp now (some u) description amount (.str "") date f1 f2 db
         = (.missingFields requiredTxFields, db)) ∧
    (∀ (nodeEnv : String) (now : Int) (u : String) (amount : JsVal) (db : DB),
       u ≠ "" →
       postBudgetCategories nodeEnv now (some u) (.str "") amount db
         = (.missingFields ["name", "amount"], db)) ∧
    (∀ (nodeEnv : String) (u idParam : String) (amount : JsVal) (db : DB),
       u ≠ "" →
       putBudgetCategories nodeEnv (some u) idParam (.str "") amount db
         = (.missingFields ["name", "amount"], db)) ∧
    (∀ (nodeEnv : String) (now : Int) (u idParam : String) (name : JsVal) (db : DB)
       (l : List String),
       u ≠ "" → name.truthy = true →
       (postBudgetCategories nodeEnv now (some u) name (.num (.finite 0)) db).1
           ≠ .missingFields l ∧
       (putBudgetCategories nodeEnv (some u) idParam name (.num (.finite 0)) db).1
           ≠ .missingFields l) := by
  refine ⟨?_, ?_, ?_, ?_, ?_, ?_⟩
  · intro nodeEnv sp now u description category date f1 f2 db l hu hd hc hdt
    simp only [postTransactions, resolvedUser_some hu]
    cases hjd : jsNewDate sp date with
    | none =>
      have hbad : postValidate sp description (.num (.finite 0)) category date
          = .bad .invalidDate := by
        simp [postValidate, hd, hc, hdt, hjd, JsNum.isNan]
      rw [hbad]
      simp
    | some d =>
      rw [postValidate_finite sp description category date 0 d hd hc hdt hjd]
      exact postStorage_not_missing nodeEnv now u description.toText (.finite 0)
        category.toText d f1 f2 db l
  · intro nodeEnv sp now u amount category date f1 f2 db hu
    exact postTransactions_bad _ _ _ _ _ _ _ _ _ _ _ _ hu
      (by simp [postValidate, JsVal.truthy])
  · intro nodeEnv sp now u description amount date f1 f2 db hu
    exact postTransactions_bad _ _ _ _ _ _ _ _ _ _ _ _ hu
      (by simp [postValidate, JsVal.truthy])
  · intro nodeEnv now u amount db hu
    simp [postBudgetCategories, resolvedUser_some hu, JsVal.truthy]
  · intro nodeEnv u idParam amount db hu
    simp [putBudgetCategories, resolvedUser_some hu, JsVal.truthy]
  · intro nodeEnv now u idParam name db l hu hnm
    exact ⟨postBudget_not_missing nodeEnv now u name (.num (.finite 0)) db l hu hnm rfl,
           putBudget_not_missing nodeEnv u idParam name (.num (.finite 0)) db l hu hnm rfl⟩

/-- Witness for C9: concrete zero amounts pass the required check (the
transaction one proceeds to the 400 of the unparseable date, the budget one
is created), and concrete empty strings are rejected as missing fields. -/
theorem C9_truthiness_of_required_fields_witness :
    (postTransactions "test" (fun _ => none) 0 (some "alice") (.str "Coffee")
        (.num (.finite 0)) (.str "Food") (.str "bad date") none none
        ⟨[], [], 1, 1⟩).1 ≠ .missingFields requiredTxFields ∧
    postTransactions "test" (fun _ => none) 0 (some "alice") (.str "")
        (.num (.finite 1)) (.str "Food") (.num (.finite 1)) none none ⟨[], [], 1, 1⟩
      = (.missingFields requiredTxFields, ⟨[], [], 1, 1⟩) ∧
    postTransactions "test" (fun _ => none) 0 (some "alice") (.str "Coffee")
        (.num (.finite 1)) (.str "") (.num (.finite 1)) none none ⟨[], [], 1, 1⟩
      = (.missingFields requiredTxFields, ⟨[], [], 1, 1⟩) ∧
    postBudgetCategories "test" 0 (some "alice") (.str "") (.num (.finite 1))
        ⟨[], [], 1, 1⟩ = (.missingFields ["name", "amount"], ⟨[], [], 1, 1⟩) ∧
    putBudgetCategories "test" (some "alice") "1" (.str "") (.num (.finite 1))
        ⟨[], [], 1, 1⟩ = (.missingFields ["name", "amount"], ⟨[], [], 1, 1⟩) ∧
    (postBudgetCategories "test" 0 (some "alice") (.str "Rent") (.num (.finite 0))
        ⟨[], [], 1, 1⟩).1 ≠ .missingFields ["name", "amount"] :=
  ⟨C9_truthiness_of_required_fields.1 "test" (fun _ => none) 0 "alice"
      (.str "Coffee") (.str "Food") (.str "bad date") none none ⟨[], [], 1, 1⟩
      requiredTxFields (by decide) (by decide) (by decide) (by decide),
   C9_truthiness_of_required_fields.2.1 "test" (fun _ => none) 0 "alice"
      (.num (.finite 1)) (.str "Food") (.num (.finite 1)) none none ⟨[], [], 1, 1⟩
      (by decide),
   C9_truthiness_of_required_fields.2.2.1 "test" (fun _ => none) 0 "alice"
      (.str "Coffee") (.num (.finite 1)) (.num (.finite 1)) none none ⟨[], [], 1, 1⟩
      (by decide),
   C9_truthiness_of_required_fields.2.2.2.1 "test" 0 "alice" (.num (.finite 1))
      ⟨[], [], 1, 1⟩ (by decide),
   C9_truthiness_of_required_fields.2.2.2.2.1 "test" "alice" "1" (.num (.finite 1))
      ⟨[], [], 1, 1⟩ (by decide),
   (C9_truthiness_of_required_fields.2.2.2.2.2 "test" 0 "alice" "1" (.str "Rent")
      ⟨[], [], 1, 1⟩ ["name", "amount"] (by decide) (by decide)).1⟩

/-- Counterexample to claim C10 as stated: a delete with the parameter abc,
which has no numeric prefix, does not yield 404: parseInt gives NaN, the
driver serialises it as the text NaN, the storage integer parse rejects it,
and the route answers 500 through the error middleware. -/
theorem C10_counterexample :
    parseIntJs "abc" = none ∧
    (deleteTransactions "production" (some "alice") "abc"
        ⟨[⟨7, "alice", "Coffee", 450, "Food", 100, 1000⟩], [], 8, 1⟩).1
      ≠ .notFound ∧
    (deleteTransactions "production" (some "alice") "abc"
        ⟨[⟨7, "alice", "Coffee", 450, "Food", 100, 1000⟩], [], 8, 1⟩).1.status
      = 500 := by
  decide

/-- Claim C10 amended: the delete id is the parseInt value of the path
parameter (its longest leading numeric prefix), so a parameter such as 7abc
deletes the record of the caller with id 7 when it exists and echoes the
parsed number as the deleted id, and yields 404 when no owned record has
that id; but a parameter with no numeric prefix parses to NaN, which the
storage layer rejects in the integer comparison, so the operation fails
with a 500 internal error (deleting nothing) rather than the claimed 404. -/
theorem C10_delete_uses_parseInt :
    (∀ (nodeEnv u idParam : String) (n : Int) (r : Transaction)
       (rest : List Transaction) (db : DB),
       u ≠ "" → parseIntJs idParam = some n →
       db.transactions.filter (fun t => (t.id : Int) == n && t.user_id == u)
         = r :: rest →
       deleteTransactions nodeEnv (some u) idParam db
         = (.deletedTx n,
            { db with transactions :=
                db.transactions.filter fun t => !((t.id : Int) == n && t.user_id == u) })) ∧
    (∀ (nodeEnv u idParam : String) (n : Int) (db : DB),
       u ≠ "" → parseIntJs idParam = some n →
       db.transactions.filter (fun t => (t.id : Int) == n && t.user_id == u) = [] →
       deleteTransactions nodeEnv (some u) idParam db = (.notFound, db)) ∧
    (∀ (nodeEnv u idParam : String) (db : DB),
       u ≠ "" → parseIntJs idParam = none →
       deleteTransactions nodeEnv (some u) idParam db
         = (errorHandler nodeEnv ⟨"22P02", "invalid input syntax for type integer"⟩, db) ∧
       (deleteTransactions nodeEnv (some u) idParam db).1.status = 500) := by
  refine ⟨?_, ?_, ?_⟩
  · intro nodeEnv u idParam n r rest db hu hp hrows
    simp [deleteTransactions, resolvedUser_some hu, hp, hrows]
  · intro nodeEnv u idParam n db hu hp hrows
    simp [deleteTransactions, resolvedUser_some hu, hp, hrows]
  · intro nodeEnv u idParam db hu hp
    constructor
    · simp [deleteTransactions, resolvedUser_some hu, hp]
    · simp [deleteTransactions, resolvedUser_some hu, hp, errorHandler, Resp.status]

/-- Witness for the amended C10: the parameter 7abc deletes the record with
id 7 of the caller and echoes 7 as the deleted id. -/
theorem C10_delete_uses_parseInt_witness :
    deleteTransactions "test" (some "alice") "7abc"
        ⟨[⟨7, "alice", "Coffee", 450, "Food", 100, 1000⟩], [], 8, 1⟩
      = (.deletedTx 7, ⟨[], [], 8, 1⟩) := by
  have h := C10_delete_uses_parseInt.1 "test" "alice" "7abc" 7
      ⟨7, "alice", "Coffee", 450, "Food", 100, 1000⟩ []
      ⟨[⟨7, "alice", "Coffee", 450, "Food", 100, 1000⟩], [], 8, 1⟩
      (by decide) (by decide) (by decide)
  rw [h]
  decide

end Klink
